import Mathlib

/-!
Verification development for the `pgdbtemplate-pq` PostgreSQL connection-provider
adapter and the template/clone lifecycle manager it plugs into.

Part 1 embeds the adapter code of `connection_provider.go` and `options.go`:
the `ConnectionProvider` with its connection-string function and pool options,
the `DatabaseConnection` wrapper around a `*sql.DB` handle, and the `Connect`
algorithm (open, apply options, ping, close-on-ping-failure).

External collaborators (`database/sql`, the `lib/pq` driver, the network) are
modelled as an environment: a `*sql.DB` handle is a record of its configured
pool limits together with the behaviour the driver would exhibit (result of a
ping, of a query, of closing), and `sql.Open` is an environment function from
connection strings to handles.

Part 2 models the template/clone lifecycle manager, which is not part of this
repository (it lives in the external `pgdbtemplate` package); it is modelled
from the specification text.
-/

/-- Model of a Go error value.  `sqlErrNoRows` is the package-level sentinel
`sql.ErrNoRows`; `contextCanceled` is `context.Canceled`; `engine s` stands for
an arbitrary driver/engine error with message `s`; `wrap p e` is
`fmt.Errorf("<p>: %w", e)`. -/
inductive GoError where
  | sqlErrNoRows : GoError
  | contextCanceled : GoError
  | engine : String → GoError
  | wrap : String → GoError → GoError
deriving DecidableEq, Repr

/-- Model of a Go `context.Context` as consumed by the adapter: all the adapter
observes of a context is whether its done-channel has fired (cancellation or
deadline expiry). -/
structure GoContext where
  cancelled : Bool
deriving DecidableEq, Repr

/-- Model of a driver value passed as `args ...any`. -/
inductive SqlValue where
  | vint : Int → SqlValue
  | vstr : String → SqlValue
  | vnull : SqlValue
deriving DecidableEq, Repr

/-- Model of an `sql.Result` returned by `ExecContext`. -/
structure SqlResult where
  lastInsertId : Int
  rowsAffected : Int
deriving DecidableEq, Repr

/-- Model of an `*sql.Row` (the row-scanning abstraction returned by
`QueryRowContext`). -/
structure SqlRow where
  scanErr : Option GoError
  values : List SqlValue
deriving DecidableEq, Repr

/-- Model of an `*sql.DB` handle: its configured pool limits (durations in
nanoseconds) plus the behaviour the underlying driver would exhibit on this
handle (what a statement execution, a single-row query, a close and a
driver-level ping would return). -/
structure SqlDB where
  connString : String
  maxOpenConns : Option Int
  maxIdleConns : Option Int
  connMaxLifetime : Option Int
  connMaxIdleTime : Option Int
  execContextFn : GoContext → String → List SqlValue → Except GoError SqlResult
  queryRowContextFn : GoContext → String → List SqlValue → SqlRow
  closeErr : Option GoError
  pingErr : Option GoError

/-- `(*sql.DB).SetMaxOpenConns`. -/
def SqlDB.SetMaxOpenConns (db : SqlDB) (n : Int) : SqlDB :=
  { db with maxOpenConns := some n }

/-- `(*sql.DB).SetMaxIdleConns`. -/
def SqlDB.SetMaxIdleConns (db : SqlDB) (n : Int) : SqlDB :=
  { db with maxIdleConns := some n }

/-- `(*sql.DB).SetConnMaxLifetime`. -/
def SqlDB.SetConnMaxLifetime (db : SqlDB) (d : Int) : SqlDB :=
  { db with connMaxLifetime := some d }

/-- `(*sql.DB).SetConnMaxIdleTime`. -/
def SqlDB.SetConnMaxIdleTime (db : SqlDB) (d : Int) : SqlDB :=
  { db with connMaxIdleTime := some d }

/-- `(*sql.DB).ExecContext`: the driver behaviour recorded on the handle. -/
def SqlDB.ExecContext (db : SqlDB) (ctx : GoContext) (query : String)
    (args : List SqlValue) : Except GoError SqlResult :=
  db.execContextFn ctx query args

/-- `(*sql.DB).QueryRowContext`: the driver behaviour recorded on the handle. -/
def SqlDB.QueryRowContext (db : SqlDB) (ctx : GoContext) (query : String)
    (args : List SqlValue) : SqlRow :=
  db.queryRowContextFn ctx query args

/-- `(*sql.DB).Close`: the driver behaviour recorded on the handle. -/
def SqlDB.Close (db : SqlDB) : Option GoError :=
  db.closeErr

/-- `(*sql.DB).PingContext`: `database/sql` acquires a connection under the
caller's context, so a context whose done-channel has already fired yields
`ctx.Err()` before the driver is consulted; otherwise the driver-level ping
result is returned. -/
def SqlDB.PingContext (db : SqlDB) (ctx : GoContext) : Option GoError :=
  if ctx.cancelled then some GoError.contextCanceled else db.pingErr

/-- `options.go`: `DatabaseConnectionOption` configures an `*sql.DB`
(mutation modelled as an update). -/
def DatabaseConnectionOption : Type := SqlDB → SqlDB

/-- `options.go`: `WithMaxOpenConns`. -/
def WithMaxOpenConns (n : Int) : DatabaseConnectionOption :=
  fun db => db.SetMaxOpenConns n

/-- `options.go`: `WithMaxIdleConns`. -/
def WithMaxIdleConns (n : Int) : DatabaseConnectionOption :=
  fun db => db.SetMaxIdleConns n

/-- `options.go`: `WithConnMaxLifetime`. -/
def WithConnMaxLifetime (d : Int) : DatabaseConnectionOption :=
  fun db => db.SetConnMaxLifetime d

/-- `options.go`: `WithConnMaxIdleTime`. -/
def WithConnMaxIdleTime (d : Int) : DatabaseConnectionOption :=
  fun db => db.SetConnMaxIdleTime d

/-- `connection_provider.go`: `DatabaseConnection` wraps a standard
`database/sql` connection. -/
structure DatabaseConnection where
  DB : SqlDB

/-- `DatabaseConnection.ExecContext`: `return c.DB.ExecContext(ctx, query, args...)`. -/
def DatabaseConnection.ExecContext (c : DatabaseConnection) (ctx : GoContext)
    (query : String) (args : List SqlValue) : Except GoError SqlResult :=
  c.DB.ExecContext ctx query args

/-- `DatabaseConnection.QueryRowContext`: `return c.DB.QueryRowContext(ctx, query, args...)`. -/
def DatabaseConnection.QueryRowContext (c : DatabaseConnection) (ctx : GoContext)
    (query : String) (args : List SqlValue) : SqlRow :=
  c.DB.QueryRowContext ctx query args

/-- `DatabaseConnection.Close`: `return c.DB.Close()`. -/
def DatabaseConnection.Close (c : DatabaseConnection) : Option GoError :=
  c.DB.Close

/-- `connection_provider.go`: `ConnectionProvider`.  The Go field
`connStringFunc` holds a function value that may be `nil`; `nil` is modelled
as `none`. -/
structure ConnectionProvider where
  connStringFunc : Option (String → String)
  options : List DatabaseConnectionOption

/-- `connection_provider.go`: `NewConnectionProvider` — stores both arguments
unchecked. -/
def NewConnectionProvider (connStringFunc : Option (String → String))
    (options : List DatabaseConnectionOption) : ConnectionProvider :=
  { connStringFunc := connStringFunc, options := options }

/-- Environment for `Connect`: the behaviour of `sql.Open("postgres", s)`
for each connection string (the `lib/pq` connector construction may fail on a
malformed string; on success it yields a fresh handle). -/
structure SqlEnv where
  sqlOpen : String → Except GoError SqlDB

/-- Observable resource events of one `Connect` call: a database handle was
opened for a connection string, or such a handle was closed. -/
inductive ConnEvent where
  | opened : String → ConnEvent
  | closedHandle : String → ConnEvent
deriving DecidableEq, Repr

/-- Outcome of a `Connect` call: a connection and `nil` error, a `nil`
connection and an error, or a runtime panic (dereference of a `nil`
`connStringFunc`). -/
inductive ConnectOutcome where
  | ok : DatabaseConnection → ConnectOutcome
  | err : GoError → ConnectOutcome
  | panicked : ConnectOutcome

/-- Apply the stored options in order, as the `for _, option := range p.options`
loop does. -/
def applyOptions (options : List DatabaseConnectionOption) (db : SqlDB) : SqlDB :=
  options.foldl (fun d o => o d) db

/-- `connection_provider.go`: `ConnectionProvider.Connect`.  Calls
`p.connStringFunc(databaseName)` (panics when the function is `nil`), opens the
database, applies the options, pings under the caller's context; on ping
failure the freshly opened handle is closed and the ping error is wrapped with
`"failed to ping database"`.  The second component is the trace of handle
open/close events of the call. -/
def ConnectionProvider.Connect (p : ConnectionProvider) (env : SqlEnv)
    (ctx : GoContext) (databaseName : String) : ConnectOutcome × List ConnEvent :=
  match p.connStringFunc with
  | none => (ConnectOutcome.panicked, [])
  | some f =>
    let connString := f databaseName
    match env.sqlOpen connString with
    | Except.error e => (ConnectOutcome.err (GoError.wrap "failed to open database" e), [])
    | Except.ok db0 =>
      let db := applyOptions p.options db0
      match db.PingContext ctx with
      | some e =>
        (ConnectOutcome.err (GoError.wrap "failed to ping database" e),
         [ConnEvent.opened connString, ConnEvent.closedHandle connString])
      | none => (ConnectOutcome.ok { DB := db }, [ConnEvent.opened connString])

/-- `connection_provider.go`: `GetNoRowsSentinel` — ignores its receiver and
returns the package-level `sql.ErrNoRows`. -/
def ConnectionProvider.GetNoRowsSentinel (_ : ConnectionProvider) : GoError :=
  GoError.sqlErrNoRows

/-!
Part 2 — the template/clone lifecycle manager.

The manager is the core the specification describes; its code lives in the
external `pgdbtemplate` package, not in this repository, so it is modelled
from the specification text (sections 3, 4.1–4.4, 7, 8).  The database engine
is modelled as the set of currently existing database names, and the
environment records which DDL operations the engine would fail.
-/

/-- Modelled from the spec: the error taxonomy of section 7 — NotInitialized,
AlreadyInitialized, engine errors wrapped with operation context, and the
aggregate of per-database failures during Cleanup naming which databases could
not be dropped. -/
inductive ManagerError where
  | notInitialized : ManagerError
  | alreadyInitialized : ManagerError
  | engine : String → String → ManagerError
  | cleanupFailed : List String → ManagerError
deriving DecidableEq, Repr

/-- Modelled from the spec: `TemplateConfig` — admin database name, template
database name, test-database name prefix (collaborator references are carried
by the environment). -/
structure TemplateConfig where
  adminDBName : String
  templateDBName : String
  testDBPfx : String
deriving DecidableEq, Repr

/-- Modelled from the spec: `ManagerState` — the live-set of currently-live
test-database names, a monotonically increasing counter used for unique
naming, and an initialized flag. -/
structure ManagerState where
  liveSet : List String
  counter : Nat
  initialized : Bool
deriving DecidableEq, Repr

/-- Modelled from the spec: one Template/Clone Manager instance — its
immutable configuration and its mutable state. -/
structure TemplateManager where
  cfg : TemplateConfig
  state : ManagerState
deriving DecidableEq, Repr

/-- The manager plus the database engine it talks to, the latter modelled as
the list of names of currently existing databases. -/
structure World where
  mgr : TemplateManager
  srv : List String
deriving DecidableEq, Repr

/-- Environment for manager operations: which `DROP DATABASE` and
`CREATE DATABASE` statements the engine would fail, and the result the
migration runner would produce against the template. -/
structure MgrEnv where
  dropFails : String → Bool
  createFails : String → Bool
  migrateErr : Option ManagerError

/-- Decimal digit characters, by value. -/
def digitChar : Nat → Char
  | 0 => '0' | 1 => '1' | 2 => '2' | 3 => '3' | 4 => '4'
  | 5 => '5' | 6 => '6' | 7 => '7' | 8 => '8' | 9 => '9'
  | _ => '9'

/-- Decimal digit string of a natural number, most significant digit first. -/
def natDigits (n : Nat) : List Char :=
  if h : n < 10 then [digitChar n]
  else natDigits (n / 10) ++ [digitChar (n % 10)]
termination_by n
decreasing_by exact Nat.div_lt_self (by omega) (by omega)

/-- Modelled from the spec: the unique test-database name — prefix, then the
monotonically increasing counter rendered in decimal, then a separator and the
caller-observed nonce; the separator keeps distinct counters producing distinct
names whatever the nonce. -/
def mkTestDBName (pfx : String) (counter : Nat) (nonce : String) : String :=
  String.mk (pfx.data ++ (natDigits counter ++ '_' :: nonce.data))

/-- Modelled from the spec: Initialize — fails with AlreadyInitialized when
called twice without Cleanup; reports a template-creation conflict when the
template database already exists; otherwise creates the template database,
runs the migrations once (a migration failure leaves the partially-migrated
template in place and the manager uninitialized), and marks the manager
initialized. -/
def initTemplate (env : MgrEnv) (w : World) : World × Except ManagerError Unit :=
  if w.mgr.state.initialized then (w, Except.error ManagerError.alreadyInitialized)
  else if w.srv.contains w.mgr.cfg.templateDBName then
    (w, Except.error (ManagerError.engine "create template database" w.mgr.cfg.templateDBName))
  else
    let srv' := w.mgr.cfg.templateDBName :: w.srv
    match env.migrateErr with
    | some e => ({ w with srv := srv' }, Except.error e)
    | none =>
      ({ mgr := { w.mgr with state := { w.mgr.state with initialized := true } },
         srv := srv' }, Except.ok ())

/-- Modelled from the spec: CreateTestDatabase — returns NotInitialized before
Initialize; otherwise generates the unique name from the counter, issues
`CREATE DATABASE ... TEMPLATE`, records the name in the live-set only after the
engine confirms success, and returns the name. -/
def createTestDatabase (env : MgrEnv) (w : World) (nonce : String) :
    World × Except ManagerError String :=
  if w.mgr.state.initialized = false then (w, Except.error ManagerError.notInitialized)
  else
    let name := mkTestDBName w.mgr.cfg.testDBPfx w.mgr.state.counter nonce
    if env.createFails name then
      ({ w with mgr := { w.mgr with state :=
          { w.mgr.state with counter := w.mgr.state.counter + 1 } } },
       Except.error (ManagerError.engine "create database" name))
    else
      ({ mgr := { w.mgr with state :=
            { liveSet := name :: w.mgr.state.liveSet,
              counter := w.mgr.state.counter + 1,
              initialized := w.mgr.state.initialized } },
         srv := name :: w.srv }, Except.ok name)

/-- Modelled from the spec: DropTestDatabase — dropping a name absent from the
live-set is a no-op success; otherwise terminate backends and issue
`DROP DATABASE` (an engine failure is surfaced and the name stays tracked),
then remove the name from the live-set. -/
def dropTestDatabase (env : MgrEnv) (w : World) (name : String) :
    World × Except ManagerError Unit :=
  if w.mgr.state.liveSet.contains name = false then (w, Except.ok ())
  else if env.dropFails name then
    (w, Except.error (ManagerError.engine "drop database" name))
  else
    ({ mgr := { w.mgr with state :=
          { w.mgr.state with liveSet := w.mgr.state.liveSet.erase name } },
       srv := w.srv.filter (fun n => n ≠ name) }, Except.ok ())

/-- Modelled from the spec: Cleanup — a no-op success when the manager is not
initialized; otherwise attempt to drop every database in the live-set
(continuing past individual failures), then drop the template database, then
mark the manager uninitialized with an empty live-set; all failures are
aggregated into one error naming every database that could not be dropped. -/
def cleanup (env : MgrEnv) (w : World) : World × Except ManagerError Unit :=
  if w.mgr.state.initialized = false then (w, Except.ok ())
  else
    let live := w.mgr.state.liveSet
    let failed := live.filter env.dropFails
    let srv1 := w.srv.filter (fun n => !(live.contains n && !env.dropFails n))
    let tmpl := w.mgr.cfg.templateDBName
    let srv2 := if env.dropFails tmpl then srv1 else srv1.filter (fun n => n ≠ tmpl)
    let failed2 := if env.dropFails tmpl then failed ++ [tmpl] else failed
    ({ mgr := { w.mgr with state :=
          { liveSet := [], counter := w.mgr.state.counter, initialized := false } },
       srv := srv2 },
     if failed2.isEmpty then Except.ok ()
     else Except.error (ManagerError.cleanupFailed failed2))

/-- A sequence of CreateTestDatabase calls (the bookkeeping critical section
serializes concurrent callers, so any concurrent execution is one such
sequence), collecting the names of the successful calls. -/
def runCreates (env : MgrEnv) (w : World) : List String → World × List String
  | [] => (w, [])
  | nonce :: rest =>
    let step := createTestDatabase env w nonce
    let next := runCreates env step.1 rest
    match step.2 with
    | Except.ok name => (next.1, name :: next.2)
    | Except.error _ => (next.1, next.2)

/-!
Decimal-name machinery: `mkTestDBName` is injective in the counter, because
the counter digits contain no separator character and the decimal rendering is
injective.
-/

/-- Numeric value of a decimal digit character (left inverse of `digitChar`). -/
def charVal : Char → Nat
  | '0' => 0 | '1' => 1 | '2' => 2 | '3' => 3 | '4' => 4
  | '5' => 5 | '6' => 6 | '7' => 7 | '8' => 8 | '9' => 9
  | _ => 0

theorem charVal_digitChar : ∀ d : Nat, d < 10 → charVal (digitChar d) = d := by decide

theorem digitChar_ne_sep : ∀ d : Nat, d < 10 → digitChar d ≠ '_' := by decide

/-- Decimal value of a digit string, accumulator style. -/
def valAux (acc : Nat) : List Char → Nat
  | [] => acc
  | c :: cs => valAux (acc * 10 + charVal c) cs

theorem valAux_append (xs : List Char) :
    ∀ (acc : Nat) (ys : List Char), valAux acc (xs ++ ys) = valAux (valAux acc xs) ys := by
  induction xs with
  | nil => intro acc ys; rfl
  | cons c cs ih => intro acc ys; simp only [List.cons_append, valAux]; exact ih _ ys

theorem valAux_natDigits (n : Nat) :
    ∀ acc : Nat, valAux acc (natDigits n) = acc * 10 ^ (natDigits n).length + n := by
  induction n using Nat.strong_induction_on with
  | _ n ih =>
    intro acc
    rw [natDigits]
    by_cases h : n < 10
    · simp only [h, dite_true, valAux, List.length_singleton, pow_one]
      rw [charVal_digitChar n h]
    · have hdiv : n / 10 < n := Nat.div_lt_self (by omega) (by omega)
      simp only [h, dite_false]
      rw [valAux_append, ih (n / 10) hdiv]
      simp only [valAux, List.length_append, List.length_singleton]
      rw [charVal_digitChar (n % 10) (Nat.mod_lt n (by omega))]
      rw [pow_succ, ← mul_assoc]
      generalize acc * 10 ^ (natDigits (n / 10)).length = t
      omega

theorem natDigits_inj {m n : Nat} (h : natDigits m = natDigits n) : m = n := by
  have hm := valAux_natDigits m 0
  have hn := valAux_natDigits n 0
  rw [h] at hm
  omega

theorem sep_not_mem_natDigits (n : Nat) : '_' ∉ natDigits n := by
  induction n using Nat.strong_induction_on with
  | _ n ih =>
    rw [natDigits]
    by_cases h : n < 10
    · simp only [h, dite_true, List.mem_singleton]
      intro heq
      exact digitChar_ne_sep n h heq.symm
    · have hdiv : n / 10 < n := Nat.div_lt_self (by omega) (by omega)
      simp only [h, dite_false, List.mem_append, List.mem_singleton]
      rintro (hmem | heq)
      · exact ih (n / 10) hdiv hmem
      · exact digitChar_ne_sep (n % 10) (Nat.mod_lt n (by omega)) heq.symm

/-- Splitting at the first separator: two separator-free blocks followed by a
separator and arbitrary tails are equal only blockwise. -/
theorem sep_append_inj :
    ∀ (xs ys t1 t2 : List Char), '_' ∉ xs → '_' ∉ ys →
      xs ++ '_' :: t1 = ys ++ '_' :: t2 → xs = ys ∧ t1 = t2 := by
  intro xs
  induction xs with
  | nil =>
    intro ys t1 t2 _ hy h
    cases ys with
    | nil => simpa using h
    | cons y ys =>
      simp only [List.nil_append, List.cons_append, List.cons.injEq] at h
      exact absurd (h.1 ▸ List.mem_cons_self y ys) hy
  | cons x xs ih =>
    intro ys t1 t2 hx hy h
    cases ys with
    | nil =>
      simp only [List.cons_append, List.nil_append, List.cons.injEq] at h
      exact absurd (h.1 ▸ List.mem_cons_self x xs) hx
    | cons y ys =>
      simp only [List.cons_append, List.cons.injEq] at h
      obtain ⟨hxy, hrest⟩ := h
      obtain ⟨hxs, ht⟩ := ih ys t1 t2 (fun hm => hx (List.mem_cons_of_mem x hm))
        (fun hm => hy (List.mem_cons_of_mem y hm)) hrest
      exact ⟨by rw [hxy, hxs], ht⟩

/-- The generated test-database name determines the counter (same prefix). -/
theorem mkTestDBName_inj_counter {p n1 n2 : String} {c1 c2 : Nat}
    (h : mkTestDBName p c1 n1 = mkTestDBName p c2 n2) : c1 = c2 := by
  unfold mkTestDBName at h
  have hdata : p.data ++ (natDigits c1 ++ '_' :: n1.data) =
      p.data ++ (natDigits c2 ++ '_' :: n2.data) := congrArg String.data h
  have hsplit := sep_append_inj (natDigits c1) (natDigits c2) n1.data n2.data
    (sep_not_mem_natDigits c1) (sep_not_mem_natDigits c2)
    (List.append_cancel_left hdata)
  exact natDigits_inj hsplit.1

/-!
Structural lemmas about the manager operations.
-/

theorem create_preserves (env : MgrEnv) (w : World) (nonce : String) :
    (createTestDatabase env w nonce).1.mgr.cfg = w.mgr.cfg ∧
    (createTestDatabase env w nonce).1.mgr.state.initialized = w.mgr.state.initialized ∧
    w.mgr.state.counter ≤ (createTestDatabase env w nonce).1.mgr.state.counter := by
  simp only [createTestDatabase]
  split
  · exact ⟨rfl, rfl, Nat.le_refl _⟩
  · split
    · exact ⟨rfl, rfl, Nat.le_succ _⟩
    · exact ⟨rfl, rfl, Nat.le_succ _⟩

theorem create_ok (env : MgrEnv) (w : World) (nonce : String) (w' : World) (name : String)
    (h : createTestDatabase env w nonce = (w', Except.ok name)) :
    name = mkTestDBName w.mgr.cfg.testDBPfx w.mgr.state.counter nonce ∧
    w'.mgr.state.counter = w.mgr.state.counter + 1 ∧
    w'.mgr.state.liveSet = name :: w.mgr.state.liveSet ∧
    w'.mgr.cfg = w.mgr.cfg := by
  simp only [createTestDatabase] at h
  split at h
  · exact Except.noConfusion (congrArg Prod.snd h)
  · split at h
    · exact Except.noConfusion (congrArg Prod.snd h)
    · rw [Prod.mk.injEq] at h
      obtain ⟨h1, h2⟩ := h
      injection h2 with h2
      subst h2
      subst h1
      exact ⟨rfl, rfl, rfl, rfl⟩

theorem create_error_cases (env : MgrEnv) (w : World) (nonce : String) (w' : World)
    (e : ManagerError) (h : createTestDatabase env w nonce = (w', Except.error e)) :
    w.mgr.state.initialized = false ∨
    env.createFails (mkTestDBName w.mgr.cfg.testDBPfx w.mgr.state.counter nonce) = true := by
  simp only [createTestDatabase] at h
  split at h
  · exact Or.inl (by assumption)
  · split at h
    · exact Or.inr (by assumption)
    · exact Except.noConfusion (congrArg Prod.snd h)

theorem runCreates_mem (env : MgrEnv) :
    ∀ (ns : List String) (w : World) (name : String),
      name ∈ (runCreates env w ns).2 →
      ∃ c nonce, w.mgr.state.counter ≤ c ∧
        name = mkTestDBName w.mgr.cfg.testDBPfx c nonce := by
  intro ns
  induction ns with
  | nil => intro w name h; simp [runCreates] at h
  | cons nonce rest ih =>
    intro w name h
    simp only [runCreates] at h
    obtain ⟨hcfg, _, hcnt⟩ := create_preserves env w nonce
    rcases hstep : (createTestDatabase env w nonce).2 with e | nm
    · rw [hstep] at h
      obtain ⟨c, nn, hc, hname⟩ := ih (createTestDatabase env w nonce).1 name h
      exact ⟨c, nn, le_trans hcnt hc, by rw [hname, hcfg]⟩
    · rw [hstep] at h
      rcases List.mem_cons.mp h with heq | hmem
      · obtain ⟨hname, _, _, _⟩ := create_ok env w nonce
          (createTestDatabase env w nonce).1 nm (by rw [← hstep])
        exact ⟨w.mgr.state.counter, nonce, Nat.le_refl _, by rw [heq, hname]⟩
      · obtain ⟨c, nn, hc, hname⟩ := ih (createTestDatabase env w nonce).1 name hmem
        exact ⟨c, nn, le_trans hcnt hc, by rw [hname, hcfg]⟩

theorem runCreates_nodup (env : MgrEnv) :
    ∀ (ns : List String) (w : World), ((runCreates env w ns).2).Nodup := by
  intro ns
  induction ns with
  | nil => intro w; simp [runCreates]
  | cons nonce rest ih =>
    intro w
    simp only [runCreates]
    rcases hstep : (createTestDatabase env w nonce).2 with e | nm
    · exact ih (createTestDatabase env w nonce).1
    · rw [List.nodup_cons]
      refine ⟨?_, ih (createTestDatabase env w nonce).1⟩
      intro hmem
      obtain ⟨hname, hcnt, _, hcfg⟩ := create_ok env w nonce
        (createTestDatabase env w nonce).1 nm (by rw [← hstep])
      obtain ⟨c, nn, hc, hname2⟩ :=
        runCreates_mem env rest (createTestDatabase env w nonce).1 nm hmem
      rw [hcnt] at hc
      rw [hcfg] at hname2
      have : w.mgr.state.counter = c :=
        mkTestDBName_inj_counter (hname.symm.trans hname2)
      omega

theorem runCreates_length (env : MgrEnv) (hok : ∀ s, env.createFails s = false) :
    ∀ (ns : List String) (w : World), w.mgr.state.initialized = true →
      ((runCreates env w ns).2).length = ns.length := by
  intro ns
  induction ns with
  | nil => intro w _; simp [runCreates]
  | cons nonce rest ih =>
    intro w hinit
    simp only [runCreates]
    obtain ⟨_, hpres, _⟩ := create_preserves env w nonce
    rcases hstep : (createTestDatabase env w nonce).2 with e | nm
    · exact absurd (create_error_cases env w nonce
        (createTestDatabase env w nonce).1 e (by rw [← hstep]))
        (by rw [hinit, hok]; simp)
    · simp only [List.length_cons]
      rw [ih (createTestDatabase env w nonce).1 (by rw [hpres, hinit])]

theorem init_ok (env : MgrEnv) (w w' : World) (h : initTemplate env w = (w', Except.ok ())) :
    w'.mgr.state.initialized = true ∧ w'.mgr.cfg = w.mgr.cfg := by
  simp only [initTemplate] at h
  split at h
  · exact Except.noConfusion (congrArg Prod.snd h)
  · split at h
    · exact Except.noConfusion (congrArg Prod.snd h)
    · split at h
      · exact Except.noConfusion (congrArg Prod.snd h)
      · rw [Prod.mk.injEq] at h
        obtain ⟨h1, _⟩ := h
        subst h1
        exact ⟨rfl, rfl⟩

/-- C4: CreateTestDatabase invoked before Initialize has completed returns a
NotInitializedError, and Initialize called a second time without an intervening
Cleanup returns an AlreadyInitializedError; in both cases the Manager's state
is unchanged by the failed call. -/
theorem lifecycle_guards (env : MgrEnv) (w1 w2 w2' : World) (nonce : String)
    (h1 : w1.mgr.state.initialized = false)
    (h2 : initTemplate env w2 = (w2', Except.ok ())) :
    createTestDatabase env w1 nonce = (w1, Except.error ManagerError.notInitialized) ∧
    initTemplate env w2' = (w2', Except.error ManagerError.alreadyInitialized) := by
  constructor
  · simp [createTestDatabase, h1]
  · have hi := (init_ok env w2 w2' h2).1
    simp [initTemplate, hi]

/-- C5: dropping a name that was never created or was already dropped is a
no-op success leaving the live-set unchanged; dropping a name in the live-set
removes exactly that entry and no other; a name just returned by
CreateTestDatabase, when dropped, restores the previous live-set. -/
theorem drop_contract (env : MgrEnv) (w : World) (name : String) :
    (w.mgr.state.liveSet.contains name = false →
      dropTestDatabase env w name = (w, Except.ok ())) ∧
    (name ∈ w.mgr.state.liveSet → env.dropFails name = false →
      (dropTestDatabase env w name).2 = Except.ok () ∧
      (dropTestDatabase env w name).1.mgr.state.liveSet =
        w.mgr.state.liveSet.erase name ∧
      ∀ o, o ≠ name →
        (o ∈ (dropTestDatabase env w name).1.mgr.state.liveSet ↔
         o ∈ w.mgr.state.liveSet)) ∧
    (∀ w' nm nonce, createTestDatabase env w nonce = (w', Except.ok nm) →
      env.dropFails nm = false →
      (dropTestDatabase env w' nm).1.mgr.state.liveSet = w.mgr.state.liveSet) := by
  refine ⟨?_, ?_, ?_⟩
  · intro h
    simp only [dropTestDatabase, h]
    simp
  · intro hmem hdf
    have hc : w.mgr.state.liveSet.contains name = true :=
      List.elem_eq_true_of_mem hmem
    refine ⟨?_, ?_, ?_⟩
    · simp only [dropTestDatabase, hc, hdf]
      simp
    · simp only [dropTestDatabase, hc, hdf]
      simp
    · intro o ho
      simp only [dropTestDatabase, hc, hdf]
      simp [List.mem_erase_of_ne ho]
  · intro w' nm nonce hcr hdf
    obtain ⟨_, _, hlive, _⟩ := create_ok env w nonce w' nm hcr
    have hc : w'.mgr.state.liveSet.contains nm = true := by
      rw [hlive]
      exact List.elem_eq_true_of_mem (List.mem_cons_self nm _)
    simp only [dropTestDatabase, hc, hdf]
    simp [hlive]

/-- C3: any N calls to CreateTestDatabase (concurrent callers being serialized
by the bookkeeping critical section) return pairwise-distinct database names —
prefix + monotonically increasing counter + nonce — and when the engine
accepts every CREATE DATABASE, the N calls return exactly N names, so the set
of returned names has cardinality N. -/
theorem create_names_unique (env : MgrEnv) (w : World) (nonces : List String) :
    ((runCreates env w nonces).2).Nodup ∧
    (w.mgr.state.initialized = true → (∀ s, env.createFails s = false) →
      ((runCreates env w nonces).2).length = nonces.length) :=
  ⟨runCreates_nodup env nonces w,
   fun hinit hok => runCreates_length env hok nonces w hinit⟩

/-- C6: when some individual drops fail during Cleanup, every remaining
tracked database is still dropped and one aggregate error names exactly the
databases that could not be dropped. -/
theorem cleanup_aggregates (env : MgrEnv) (w : World)
    (hinit : w.mgr.state.initialized = true)
    (htmpl : env.dropFails w.mgr.cfg.templateDBName = false)
    (hfail : w.mgr.state.liveSet.filter env.dropFails ≠ []) :
    (cleanup env w).2 = Except.error
      (ManagerError.cleanupFailed (w.mgr.state.liveSet.filter env.dropFails)) ∧
    ∀ n ∈ w.mgr.state.liveSet, env.dropFails n = false → n ∉ (cleanup env w).1.srv := by
  have hne : (w.mgr.state.liveSet.filter env.dropFails).isEmpty = false := by
    rcases hfe : w.mgr.state.liveSet.filter env.dropFails with _ | ⟨a, l⟩
    · exact absurd hfe hfail
    · rfl
  have hex : ∃ x ∈ w.mgr.state.liveSet, env.dropFails x = true := by
    rcases hfe : w.mgr.state.liveSet.filter env.dropFails with _ | ⟨a, l⟩
    · exact absurd hfe hfail
    · have ha : a ∈ w.mgr.state.liveSet.filter env.dropFails := by
        rw [hfe]; exact List.mem_cons_self a l
      rw [List.mem_filter] at ha
      exact ⟨a, ha.1, ha.2⟩
  constructor
  · simp only [cleanup, hinit, htmpl, hne]
    simp
    exact hex
  · intro n hn hdf hmem
    simp only [cleanup, hinit, htmpl, hne] at hmem
    simp [List.mem_filter, hn, hdf] at hmem

/-- C7: Cleanup drops every database in the live-set, then the template
database, then marks the Manager uninitialized; it succeeds when the live-set
is empty (dropping only the template), a second consecutive Cleanup is a no-op
returning success, and a subsequent Initialize succeeds. -/
theorem cleanup_lifecycle (env : MgrEnv) (w : World)
    (hinit : w.mgr.state.initialized = true)
    (hlive : ∀ n ∈ w.mgr.state.liveSet, env.dropFails n = false)
    (htmpl : env.dropFails w.mgr.cfg.templateDBName = false)
    (hmig : env.migrateErr = none) :
    (cleanup env w).2 = Except.ok () ∧
    (cleanup env w).1.mgr.state.initialized = false ∧
    (cleanup env w).1.mgr.state.liveSet = [] ∧
    (∀ n ∈ w.mgr.state.liveSet, n ∉ (cleanup env w).1.srv) ∧
    w.mgr.cfg.templateDBName ∉ (cleanup env w).1.srv ∧
    (∀ n, n ∉ w.mgr.state.liveSet → n ≠ w.mgr.cfg.templateDBName →
      (n ∈ (cleanup env w).1.srv ↔ n ∈ w.srv)) ∧
    cleanup env (cleanup env w).1 = ((cleanup env w).1, Except.ok ()) ∧
    (initTemplate env (cleanup env w).1).2 = Except.ok () := by
  have hfilter : w.mgr.state.liveSet.filter env.dropFails = [] := by
    rw [List.filter_eq_nil_iff]
    intro a ha
    rw [hlive a ha]
    simp
  have hok : (cleanup env w).2 = Except.ok () := by
    simp only [cleanup, hinit, htmpl, hfilter]
    simp
  have huninit : (cleanup env w).1.mgr.state.initialized = false := by
    simp only [cleanup, hinit]
    simp
  have hlive0 : (cleanup env w).1.mgr.state.liveSet = [] := by
    simp only [cleanup, hinit]
    simp
  have hcfg : (cleanup env w).1.mgr.cfg = w.mgr.cfg := by
    simp only [cleanup, hinit]
    simp
  have hdropped : ∀ n ∈ w.mgr.state.liveSet, n ∉ (cleanup env w).1.srv := by
    intro n hn hmem
    simp only [cleanup, hinit, htmpl] at hmem
    simp [List.mem_filter, hn, hlive n hn] at hmem
  have htgone : w.mgr.cfg.templateDBName ∉ (cleanup env w).1.srv := by
    intro hmem
    simp only [cleanup, hinit, htmpl] at hmem
    simp [List.mem_filter] at hmem
  have hothers : ∀ n, n ∉ w.mgr.state.liveSet → n ≠ w.mgr.cfg.templateDBName →
      (n ∈ (cleanup env w).1.srv ↔ n ∈ w.srv) := by
    intro n hnl hnt
    have hcn : w.mgr.state.liveSet.contains n = false := by
      cases hb : w.mgr.state.liveSet.contains n with
      | false => rfl
      | true => exact absurd (List.mem_of_elem_eq_true hb) hnl
    simp only [cleanup, hinit, htmpl]
    simp [List.mem_filter, hcn, hnt]
    exact fun _ => Or.inl hnl
  have hsecond : cleanup env (cleanup env w).1 = ((cleanup env w).1, Except.ok ()) := by
    generalize hgen : (cleanup env w).1 = w' at huninit
    simp [cleanup, huninit]
  have hreinit : (initTemplate env (cleanup env w).1).2 = Except.ok () := by
    have hts : (cleanup env w).1.srv.contains w.mgr.cfg.templateDBName = false := by
      cases hb : (cleanup env w).1.srv.contains w.mgr.cfg.templateDBName with
      | false => rfl
      | true => exact absurd (List.mem_of_elem_eq_true hb) htgone
    generalize hgen : (cleanup env w).1 = w' at huninit hcfg hts
    simp only [initTemplate, huninit, hcfg, hts, hmig]
    simp
  exact ⟨hok, huninit, hlive0, hdropped, htgone, hothers, hsecond, hreinit⟩

/-- C1: for every database name, Connect either returns a connection that
answered a ping together with a nil error, or a nil connection and a non-nil
error; in the ping-failure case the error wraps the ping error with the prefix
"failed to ping database" and the just-opened handle is closed before
returning. -/
theorem connect_contract (env : SqlEnv) (p : ConnectionProvider) (ctx : GoContext)
    (name : String) (f : String → String) (h : p.connStringFunc = some f) :
    ((∃ conn, (p.Connect env ctx name).1 = ConnectOutcome.ok conn ∧
        conn.DB.PingContext ctx = none) ∨
     (∃ e, (p.Connect env ctx name).1 = ConnectOutcome.err e)) ∧
    (∀ db e, env.sqlOpen (f name) = Except.ok db →
      (applyOptions p.options db).PingContext ctx = some e →
      p.Connect env ctx name =
        (ConnectOutcome.err (GoError.wrap "failed to ping database" e),
         [ConnEvent.opened (f name), ConnEvent.closedHandle (f name)])) := by
  constructor
  · simp only [ConnectionProvider.Connect, h]
    rcases hop : env.sqlOpen (f name) with e | db
    · exact Or.inr ⟨GoError.wrap "failed to open database" e, rfl⟩
    · rcases hping : (applyOptions p.options db).PingContext ctx with _ | e
      · exact Or.inl ⟨{ DB := applyOptions p.options db }, by simp [hping], hping⟩
      · exact Or.inr ⟨GoError.wrap "failed to ping database" e, by simp [hping]⟩
  · intro db e hop hping
    simp only [ConnectionProvider.Connect, h, hop, hping]

/-- C2: GetNoRowsSentinel returns exactly the engine's "no rows" sentinel
`sql.ErrNoRows`, the same value for every provider and every call. -/
theorem sentinel_constant (p q : ConnectionProvider) :
    p.GetNoRowsSentinel = GoError.sqlErrNoRows ∧
    p.GetNoRowsSentinel = q.GetNoRowsSentinel :=
  ⟨rfl, rfl⟩

/-- C8: the DatabaseConnection wrapper delegates purely — ExecContext,
QueryRowContext and Close each return exactly what the identically-named
method of the wrapped handle returns for the same arguments. -/
theorem wrapper_delegates (c : DatabaseConnection) (ctx : GoContext)
    (query : String) (args : List SqlValue) :
    c.ExecContext ctx query args = c.DB.ExecContext ctx query args ∧
    c.QueryRowContext ctx query args = c.DB.QueryRowContext ctx query args ∧
    c.Close = c.DB.Close :=
  ⟨rfl, rfl, rfl⟩

/-- C9: Connect called with an already-cancelled context returns a non-nil
error and no connection — the liveness ping is issued under the caller's
context. -/
theorem connect_cancelled (env : SqlEnv) (p : ConnectionProvider) (ctx : GoContext)
    (name : String) (f : String → String) (h : p.connStringFunc = some f)
    (hc : ctx.cancelled = true) :
    ∃ e, (p.Connect env ctx name).1 = ConnectOutcome.err e := by
  simp only [ConnectionProvider.Connect, h]
  rcases hop : env.sqlOpen (f name) with e | db
  · exact ⟨GoError.wrap "failed to open database" e, rfl⟩
  · refine ⟨GoError.wrap "failed to ping database" GoError.contextCanceled, ?_⟩
    simp [SqlDB.PingContext, hc]

/-- C10: NewConnectionProvider performs no validation — it accepts a nil
connection-string function and an empty option list, every later Connect call
on such a provider panics when invoking the nil function, and only
GetNoRowsSentinel is safe on it. -/
theorem new_provider_unchecked (env : SqlEnv) (ctx : GoContext) (name : String) :
    (NewConnectionProvider none []).connStringFunc = none ∧
    (NewConnectionProvider none []).options = [] ∧
    (NewConnectionProvider none []).Connect env ctx name = (ConnectOutcome.panicked, []) ∧
    (NewConnectionProvider none []).GetNoRowsSentinel = GoError.sqlErrNoRows :=
  ⟨rfl, rfl, rfl, rfl⟩

/-!
Concrete fixtures used to exercise the theorems at specific inputs.
-/

/-- A sample `*sql.DB` handle with trivial driver behaviour and a chosen ping
result. -/
def sampleDB (cs : String) (pe : Option GoError) : SqlDB :=
  { connString := cs, maxOpenConns := none, maxIdleConns := none,
    connMaxLifetime := none, connMaxIdleTime := none,
    execContextFn := fun _ _ _ => Except.ok { lastInsertId := 0, rowsAffected := 0 },
    queryRowContextFn := fun _ _ _ => { scanErr := none, values := [] },
    closeErr := none, pingErr := pe }

/-- An environment whose `sql.Open` always succeeds but whose handles fail the
liveness ping. -/
def envPingFail : SqlEnv :=
  { sqlOpen := fun cs => Except.ok (sampleDB cs (some (GoError.engine "db not found"))) }

/-- The connection-string function of the tests. -/
def localCSF : String → String := fun n => "postgres://localhost/" ++ n

/-- A provider built over `localCSF` with no options. -/
def provLocal : ConnectionProvider := NewConnectionProvider (some localCSF) []

/-- A manager environment in which every engine operation succeeds. -/
def envAllOk : MgrEnv :=
  { dropFails := fun _ => false, createFails := fun _ => false, migrateErr := none }

/-- A manager environment in which dropping the database "bad" fails. -/
def envDropBad : MgrEnv :=
  { dropFails := fun s => s == "bad", createFails := fun _ => false, migrateErr := none }

/-- A sample configuration. -/
def cfg0 : TemplateConfig :=
  { adminDBName := "postgres", templateDBName := "tmpl", testDBPfx := "test" }

/-- A world whose manager has not been initialized. -/
def wFresh : World :=
  { mgr := { cfg := cfg0, state := { liveSet := [], counter := 0, initialized := false } },
    srv := ["postgres"] }

/-- The world after a successful Initialize on `wFresh`. -/
def wInit : World :=
  { mgr := { cfg := cfg0, state := { liveSet := [], counter := 0, initialized := true } },
    srv := ["tmpl", "postgres"] }

/-- An initialized world tracking five test databases, one of them "bad". -/
def wFive : World :=
  { mgr := { cfg := cfg0,
             state := { liveSet := ["d1", "d2", "bad", "d4", "d5"], counter := 5,
                        initialized := true } },
    srv := ["postgres", "tmpl", "d1", "d2", "bad", "d4", "d5"] }

/-- C1 witness: a provider over `localCSF` in the ping-failing environment. -/
theorem connect_contract_witness :
    ((∃ conn, (provLocal.Connect envPingFail ⟨false⟩ "tdb").1 = ConnectOutcome.ok conn ∧
        conn.DB.PingContext ⟨false⟩ = none) ∨
     (∃ e, (provLocal.Connect envPingFail ⟨false⟩ "tdb").1 = ConnectOutcome.err e)) ∧
    (∀ db e, envPingFail.sqlOpen (localCSF "tdb") = Except.ok db →
      (applyOptions provLocal.options db).PingContext ⟨false⟩ = some e →
      provLocal.Connect envPingFail ⟨false⟩ "tdb" =
        (ConnectOutcome.err (GoError.wrap "failed to ping database" e),
         [ConnEvent.opened (localCSF "tdb"), ConnEvent.closedHandle (localCSF "tdb")])) :=
  connect_contract envPingFail provLocal ⟨false⟩ "tdb" localCSF rfl

/-- C3 witness: three creations on an initialized manager yield three distinct
names. -/
theorem create_names_unique_witness :
    ((runCreates envAllOk wInit ["a", "b", "c"]).2).Nodup ∧
    (wInit.mgr.state.initialized = true → (∀ s, envAllOk.createFails s = false) →
      ((runCreates envAllOk wInit ["a", "b", "c"]).2).length = 3) :=
  create_names_unique envAllOk wInit ["a", "b", "c"]

/-- C4 witness: creating before Initialize fails, and a second Initialize
after a successful one fails, in both cases leaving the state unchanged. -/
theorem lifecycle_guards_witness :
    createTestDatabase envAllOk wFresh "n0" = (wFresh, Except.error ManagerError.notInitialized) ∧
    initTemplate envAllOk wInit = (wInit, Except.error ManagerError.alreadyInitialized) :=
  lifecycle_guards envAllOk wFresh wFresh wInit "n0" rfl rfl

/-- C5 witness: dropping an unknown name is a no-op success, and dropping a
tracked name removes exactly that entry. -/
theorem drop_contract_witness :
    dropTestDatabase envAllOk wFive "nope" = (wFive, Except.ok ()) ∧
    (dropTestDatabase envAllOk wFive "d2").1.mgr.state.liveSet = ["d1", "bad", "d4", "d5"] := by
  constructor
  · exact (drop_contract envAllOk wFive "nope").1 (by decide)
  · rw [((drop_contract envAllOk wFive "d2").2.1 (by decide) (by decide)).2.1]
    decide

/-- C6 witness: with five tracked databases of which one fails to drop, the
other four are dropped and exactly one failure is reported, naming "bad". -/
theorem cleanup_aggregates_witness :
    (cleanup envDropBad wFive).2 = Except.error
      (ManagerError.cleanupFailed (wFive.mgr.state.liveSet.filter envDropBad.dropFails)) ∧
    ∀ n ∈ wFive.mgr.state.liveSet, envDropBad.dropFails n = false →
      n ∉ (cleanup envDropBad wFive).1.srv :=
  cleanup_aggregates envDropBad wFive (by decide) (by decide) (by decide)

/-- C7 witness: a full Cleanup on five tracked databases with no failures. -/
theorem cleanup_lifecycle_witness :
    (cleanup envAllOk wFive).2 = Except.ok () ∧
    (cleanup envAllOk wFive).1.mgr.state.initialized = false ∧
    (cleanup envAllOk wFive).1.mgr.state.liveSet = [] ∧
    (∀ n ∈ wFive.mgr.state.liveSet, n ∉ (cleanup envAllOk wFive).1.srv) ∧
    wFive.mgr.cfg.templateDBName ∉ (cleanup envAllOk wFive).1.srv ∧
    (∀ n, n ∉ wFive.mgr.state.liveSet → n ≠ wFive.mgr.cfg.templateDBName →
      (n ∈ (cleanup envAllOk wFive).1.srv ↔ n ∈ wFive.srv)) ∧
    cleanup envAllOk (cleanup envAllOk wFive).1 = ((cleanup envAllOk wFive).1, Except.ok ()) ∧
    (initTemplate envAllOk (cleanup envAllOk wFive).1).2 = Except.ok () :=
  cleanup_lifecycle envAllOk wFive (by decide) (by decide) (by decide) rfl

/-- C9 witness: Connect with an already-cancelled context fails. -/
theorem connect_cancelled_witness :
    ∃ e, (provLocal.Connect envPingFail ⟨true⟩ "tdb").1 = ConnectOutcome.err e :=
  connect_cancelled envPingFail provLocal ⟨true⟩ "tdb" localCSF rfl rfl
